import Mathlib

/-! Verification development for the Lhyst serverless verification-code flow.

The embedded handlers are:
 * `VerifyCode.handler` — `exports.handler` of src/netlify/functions/verify-code.js;
 * `GenerateCodeMulti.handler` — the generate-code variant with multi-provider
   e-mail fallback (src/unnamed/part_002, lines 94-345);
 * `GenerateCodeLegacy.handler` — the generate-code variant of
   src/unnamed/part_001 (lines 106-241);
 * `Feedback.handler` — the feedback relay of src/unnamed/part_001 (lines 1-104).

Modelling conventions: the Supabase-backed persistent state (`email_codes`,
auth users, `profiles`) is the `Store` value threaded through each handler, and
REST calls against it are total state operations (the store is the model, so
its HTTP responses are always `ok`).  E-mail provider calls are external, so
their outcomes are an oracle of type `Provider → SendOutcome`; the pseudo-random
six-digit code of generate-code is likewise an explicit `rcode` argument.
Timestamps are `Int` milliseconds (JS `Date.now()` / `Date.getTime()`).  A
response body is the `Body` inductive: the JS object handed to
`JSON.stringify`, or a plain-text body. -/

/-- One row of the `email_codes` table.  `expires_at` is the stored expiry as a
millisecond timestamp (the JS code stores an ISO string and compares it through
`new Date(...).getTime()`). -/
structure CodeRow where
  email : String
  code : String
  expires_at : Int
  used : Bool
  deriving DecidableEq, Repr

/-- One row of the Supabase auth user list (`/auth/v1/admin/users`). -/
structure UserRow where
  id : Nat
  email : String
  deriving DecidableEq, Repr

/-- One row of the `profiles` table. -/
structure ProfileRow where
  id : Nat
  plan : String
  trial_end_at : Int
  deriving DecidableEq, Repr

/-- The external Supabase-backed state.  `nextId` models the id the auth
backend will assign to the next created user. -/
structure Store where
  emailCodes : List CodeRow
  users : List UserRow
  profiles : List ProfileRow
  nextId : Nat
  deriving DecidableEq, Repr

/-- Process environment.  Each variable is `none` when unset; the JS guards
(`!supabaseUrl`, `if (RESEND_API_KEY)` …) use string truthiness, which also
rejects the empty string — captured by `envSet`. -/
structure Env where
  supabaseUrl : Option String
  serviceKey : Option String
  resendKey : Option String
  sendgridKey : Option String
  mailgunKey : Option String
  mailgunDomain : Option String
  fromEmail : Option String
  deriving DecidableEq, Repr

/-- JS truthiness of an optional environment string. -/
def envSet (o : Option String) : Prop := o.getD "" ≠ ""

instance (o : Option String) : Decidable (envSet o) := by
  unfold envSet; infer_instance

/-- A response body: a plain string body (`text`), or the JS object handed to
`JSON.stringify` — `errorMsg m` is `{error: m}`, `success` is `{success:true}`
(verify-code, line 159), and `successCodeNote c n` is `{success:true, code:c,
note:n}` (part_002, line 336; `n = none` models an `undefined` note, which
`JSON.stringify` omits). -/
inductive Body where
  | text (s : String)
  | errorMsg (msg : String)
  | success
  | successCodeNote (code : String) (note : Option String)
  deriving DecidableEq, Repr

structure HttpResponse where
  statusCode : Nat
  body : Body
  deriving DecidableEq, Repr

/-- JS `String.prototype.toLowerCase` (character-wise lowering; on the ASCII
range this is exactly `Char.toLower`).  Implemented over `List Char` so that it
reduces in the kernel. -/
def jsToLower (s : String) : String := ⟨s.data.map Char.toLower⟩

/-- JS `String.prototype.trim`: strip leading and trailing whitespace. -/
def jsTrim (s : String) : String :=
  ⟨((s.data.dropWhile Char.isWhitespace).reverse.dropWhile Char.isWhitespace).reverse⟩

/-- JS `String.prototype.slice(0, n)`. -/
def jsSlice (s : String) (n : Nat) : String := ⟨s.data.take n⟩

/-- `(body.email || '').toLowerCase().trim()` — e-mail normalization. -/
def normEmail (o : Option String) : String := jsTrim (jsToLower (o.getD ""))

/-- `(body.code || '').trim()` — code normalization in verify-code. -/
def normCode (o : Option String) : String := jsTrim (o.getD "")

/-- `GET /auth/v1/admin/users?email=…`: the users of the identity store whose
e-mail equals the queried one. -/
def usersByEmail (s : Store) (em : String) : List UserRow :=
  s.users.filter (fun u => decide (u.email = em))

namespace VerifyCode

/-- The request body of verify-code plus the HTTP method of the event. -/
structure Req where
  httpMethod : String
  email : Option String
  code : Option String
  password : Option String
  plan : Option String
  deriving DecidableEq, Repr

/-- `GET /rest/v1/email_codes?email=eq.…&code=eq.…&used=eq.false` (verify-code
lines 41-51).  The query carries no order clause, so the store returns the
matching rows in table (insertion) order. -/
def codesQuery (s : Store) (em cd : String) : List CodeRow :=
  s.emailCodes.filter (fun r => decide (r.email = em ∧ r.code = cd ∧ r.used = false))

/-- `PATCH /rest/v1/email_codes?email=eq.…&code=eq.…` with body `{used:true}`
(verify-code lines 76-89).  The filter has no `used=eq.false` condition, so
every row with this e-mail and code is written. -/
def markUsed (s : Store) (em cd : String) : Store :=
  { s with emailCodes := s.emailCodes.map (fun r =>
      if r.email = em ∧ r.code = cd then { r with used := true } else r) }

/-- `POST /rest/v1/profiles` with `Prefer: resolution=merge-duplicates`
(verify-code lines 141-156): merge onto the row with the same id, else insert. -/
def upsertProfile (s : Store) (p : ProfileRow) : Store :=
  { s with profiles :=
      if s.profiles.any (fun q => q.id == p.id) then
        s.profiles.map (fun q => if q.id = p.id then p else q)
      else s.profiles ++ [p] }

/-- Embedding of `exports.handler` of src/netlify/functions/verify-code.js.
Store REST calls always answer `ok` (the store is the model), so the
`!codesRes.ok` / `!markRes.ok` 500-paths do not arise; user creation conflicts
exactly when a user with the e-mail already exists, in which case the handler
lists and reuses that user's id (lines 108-129), so the
`Failed to create user` 400-path does not arise either. -/
def handler (env : Env) (req : Req) (now : Int) (s : Store) : HttpResponse × Store :=
  if req.httpMethod ≠ "POST" then (⟨405, Body.text "Method Not Allowed"⟩, s)
  else
    let email := normEmail req.email
    let code := normCode req.code
    let password := req.password.getD ""
    if email = "" ∨ code = "" ∨ password = "" then
      (⟨400, Body.errorMsg "Email, code and password are required"⟩, s)
    else if ¬ envSet env.supabaseUrl ∨ ¬ envSet env.serviceKey then
      (⟨500, Body.errorMsg "Supabase configuration is missing"⟩, s)
    else
      match codesQuery s email code with
      | [] => (⟨400, Body.errorMsg "Invalid or expired verification code"⟩, s)
      | codeRow :: _ =>
        if codeRow.expires_at < now then
          (⟨400, Body.errorMsg "Verification code has expired"⟩, s)
        else
          let plan := if (req.plan.getD "") = "" then "basic" else req.plan.getD ""
          let s1 := markUsed s email code
          let trialEnd := now + 14 * 24 * 60 * 60 * 1000
          match usersByEmail s1 email with
          | u :: _ =>
            (⟨200, Body.success⟩, upsertProfile s1 ⟨u.id, plan, trialEnd⟩)
          | [] =>
            let s2 : Store :=
              { s1 with users := s1.users ++ [⟨s1.nextId, email⟩], nextId := s1.nextId + 1 }
            (⟨200, Body.success⟩, upsertProfile s2 ⟨s1.nextId, plan, trialEnd⟩)

end VerifyCode

namespace GenerateCodeMulti

/-- The request body of generate-code plus the HTTP method of the event. -/
structure Req where
  httpMethod : String
  email : Option String
  deriving DecidableEq, Repr

/-- The three e-mail providers, in the fixed priority order of the source. -/
inductive Provider where
  | resend
  | sendgrid
  | mailgun
  deriving DecidableEq, Repr

/-- Outcome of one provider HTTP call: `ok` for a 2xx response, `err t` for a
failure whose response text is `t`. -/
inductive SendOutcome where
  | ok
  | err (t : String)
  deriving DecidableEq, Repr

/-- The provider-specific failure text recorded in `note` (part_002 lines 245,
281, 309). -/
def providerErrMsg : Provider → String → String
  | .resend, t => "Resend error: " ++ t
  | .sendgrid, t => "SendGrid error: " ++ t
  | .mailgun, t => "Mailgun error: " ++ t

/-- `note = note ? note + " | " + msg : msg`. -/
def noteAppend : Option String → String → Option String
  | some n, msg => some (n ++ " | " ++ msg)
  | none, msg => some msg

/-- The mutable state threaded through the `sendViaX` helpers: the `emailSent`
flag, the diagnostic `note`, and (for the embedding's observation of effects)
the list of providers actually called, in call order. -/
structure SendState where
  emailSent : Bool
  note : Option String
  attempts : List Provider
  deriving DecidableEq, Repr

/-- One `sendViaResend` / `sendViaSendGrid` / `sendViaMailgun` call (part_002
lines 228-314): success sets `emailSent`; failure appends the provider-specific
error text to `note`. -/
def attempt (o : Provider → SendOutcome) (p : Provider) (st : SendState) : SendState :=
  match o p with
  | .ok => { st with emailSent := true, attempts := st.attempts ++ [p] }
  | .err t =>
      { st with note := noteAppend st.note (providerErrMsg p t),
                attempts := st.attempts ++ [p] }

/-- The attempt chain of part_002 lines 317-326: Resend if configured, then
SendGrid if not yet sent, then Mailgun if not yet sent. -/
def sendCore (env : Env) (o : Provider → SendOutcome) : SendState :=
  let st0 : SendState := ⟨false, none, []⟩
  let st1 := if envSet env.resendKey then attempt o .resend st0 else st0
  let st2 := if ¬ st1.emailSent ∧ envSet env.sendgridKey then attempt o .sendgrid st1 else st1
  if ¬ st2.emailSent ∧ envSet env.mailgunKey ∧ envSet env.mailgunDomain then
    attempt o .mailgun st2
  else st2

/-- The whole provider block of part_002 lines 316-332, including the
`FROM_EMAIL` gate and the fallback note of lines 327-329. -/
def sendPhase (env : Env) (o : Provider → SendOutcome) : SendState :=
  if envSet env.fromEmail then
    let st := sendCore env o
    if ¬ st.emailSent ∧ st.note = none then
      { st with note := some "No email provider configured or all providers failed" }
    else st
  else ⟨false, some "FROM_EMAIL is not configured", []⟩

/-- The cooldown loop of part_002 lines 173-188: some queried row (the query of
lines 155-165 filters `email=eq.…&used=eq.false`) is unused and unexpired. -/
def cooldownHit (s : Store) (em : String) (now : Int) : Prop :=
  ∃ r ∈ s.emailCodes.filter (fun r => decide (r.email = em ∧ r.used = false)),
    r.used = false ∧ now < r.expires_at

instance (s : Store) (em : String) (now : Int) : Decidable (cooldownHit s em now) := by
  unfold cooldownHit; infer_instance

/-- Embedding of the generate-code `exports.handler` of src/unnamed/part_002.
`rcode` is the value of `Math.floor(100000 + Math.random() * 900000).toString()`
(line 190), an input because the randomness is external to the model. -/
def handler (env : Env) (req : Req) (now : Int) (rcode : String)
    (o : Provider → SendOutcome) (s : Store) : HttpResponse × Store :=
  if req.httpMethod ≠ "POST" then (⟨405, Body.text "Method Not Allowed"⟩, s)
  else
    let email := normEmail req.email
    if email = "" then (⟨400, Body.errorMsg "Email is required"⟩, s)
    else if ¬ envSet env.supabaseUrl ∨ ¬ envSet env.serviceKey then
      (⟨500, Body.errorMsg "Supabase configuration is missing"⟩, s)
    else if usersByEmail s email ≠ [] then
      (⟨400, Body.errorMsg "This email is already registered"⟩, s)
    else if cooldownHit s email now then
      (⟨400, Body.errorMsg "A verification code has already been sent. Please check your email or wait until it expires."⟩, s)
    else
      let expiresAt := now + 60 * 60 * 1000
      let s1 : Store := { s with emailCodes := s.emailCodes ++ [⟨email, rcode, expiresAt, false⟩] }
      let st := sendPhase env o
      (⟨200, Body.successCodeNote rcode st.note⟩, s1)

end GenerateCodeMulti

namespace GenerateCodeLegacy

open GenerateCodeMulti (Req)

/-- The body of the `try` block of the part_001 generate-code handler, as an
`Except` whose `.error ()` is a thrown JS exception.  Line 175 computes
`new Date(now + 60 * 60 * 1000)`, but no identifier `now` is declared anywhere
in that handler's (or module's) scope, so reaching it throws a
`ReferenceError`, before the `email_codes` insert of lines 177-193. -/
def tryBlock (env : Env) (req : Req) (s : Store) : Except Unit (HttpResponse × Store) :=
  let email := normEmail req.email
  if email = "" then .ok (⟨400, Body.errorMsg "Email is required"⟩, s)
  else if ¬ envSet env.supabaseUrl ∨ ¬ envSet env.serviceKey then
    .ok (⟨500, Body.errorMsg "Supabase configuration is missing"⟩, s)
  else if usersByEmail s email ≠ [] then
    .ok (⟨400, Body.errorMsg "This email is already registered"⟩, s)
  else
    .error ()

/-- Embedding of the generate-code `exports.handler` of src/unnamed/part_001
(lines 119-241): the method check, then the `try` block, whose thrown
`ReferenceError` is caught at lines 234-240. -/
def handler (env : Env) (req : Req) (s : Store) : HttpResponse × Store :=
  if req.httpMethod ≠ "POST" then (⟨405, Body.text "Method Not Allowed"⟩, s)
  else
    match tryBlock env req s with
    | .ok r => r
    | .error _ => (⟨500, Body.errorMsg "An unexpected error occurred"⟩, s)

end GenerateCodeLegacy

namespace Feedback

open GenerateCodeMulti (Provider SendOutcome)

/-- The request body of the feedback relay (`{ to, subject, body, from?, name? }`)
plus the HTTP method; `toAddr` is the JSON field `to` and `replyFrom` the JSON
field `from` (both renamed because they are reserved words in Lean). -/
structure Req where
  httpMethod : String
  toAddr : Option String
  body : Option String
  replyFrom : Option String
  name : Option String
  deriving DecidableEq, Repr

/-- Embedding of the feedback `exports.handler` of src/unnamed/part_001
(lines 9-104).  Besides the response it returns the list of providers actually
called, in call order.  Only the first configured provider is ever called: a
provider failure returns 500 at once (lines 43-46, 69-72, 93-96) instead of
falling through to the next provider. -/
def handler (env : Env) (req : Req) (o : Provider → SendOutcome) :
    HttpResponse × List Provider :=
  if req.httpMethod ≠ "POST" then (⟨405, Body.text "Method Not Allowed"⟩, [])
  else
    let toAddr := req.toAddr.getD ""
    let text := jsSlice (req.body.getD "") 20000
    if toAddr = "" ∨ text = "" then
      (⟨400, Body.text "Missing \x27to\x27 or \x27body\x27."⟩, [])
    else if envSet env.resendKey then
      match o .resend with
      | .ok => (⟨200, Body.text "Sent via Resend"⟩, [.resend])
      | .err t => (⟨500, Body.text ("Resend error: " ++ t)⟩, [.resend])
    else if envSet env.sendgridKey then
      match o .sendgrid with
      | .ok => (⟨200, Body.text "Sent via SendGrid"⟩, [.sendgrid])
      | .err t => (⟨500, Body.text ("SendGrid error: " ++ t)⟩, [.sendgrid])
    else if envSet env.mailgunKey ∧ envSet env.mailgunDomain then
      match o .mailgun with
      | .ok => (⟨200, Body.text "Sent via Mailgun"⟩, [.mailgun])
      | .err t => (⟨500, Body.text ("Mailgun error: " ++ t)⟩, [.mailgun])
    else
      (⟨500, Body.text "No email provider configured. Set RESEND_API_KEY or SENDGRID_API_KEY or MAILGUN_API_KEY env var in Netlify."⟩, [])

end Feedback

/-! Derived definitions used by the claim theorems: the used-flag monotonicity
predicate, specification-side descriptions of the dispatch loop (written from
the spec's words, to be compared with the source-side `sendCore`/`sendPhase`),
and concrete inputs for witnesses and counterexamples. -/

open GenerateCodeMulti (Provider SendOutcome)

/-- Positionwise monotonicity of the `used` flag between two `email_codes`
tables: no row transitions from `used = true` back to `used = false`. -/
def usedMonoL (l l' : List CodeRow) : Prop :=
  l.length ≤ l'.length ∧
  ∀ (i : Nat) (h1 : i < l.length) (h2 : i < l'.length),
    (l[i]).used = true → (l'[i]).used = true

/-- `usedMonoL` on the `email_codes` table of two stores. -/
def usedMonotone (s s' : Store) : Prop := usedMonoL s.emailCodes s'.emailCodes

/-- Written from the spec's words (§4.3): the ordered list of configured
providers, in the fixed priority order Resend, SendGrid, Mailgun; a provider is
configured only if all of its required API credentials are present
(`FROM_EMAIL`, shared by all three, is treated separately as in the source). -/
def configuredProviders (env : Env) : List Provider :=
  (if envSet env.resendKey then [Provider.resend] else []) ++
  (if envSet env.sendgridKey then [Provider.sendgrid] else []) ++
  (if envSet env.mailgunKey ∧ envSet env.mailgunDomain then [Provider.mailgun] else [])

/-- Written from the spec's words (§4.3): attempt delivery via each provider of
the list in order until one reports success. -/
def specAttempts (o : Provider → SendOutcome) : List Provider → List Provider
  | [] => []
  | p :: ps =>
    match o p with
    | .ok => [p]
    | .err _ => p :: specAttempts o ps

def isOk : SendOutcome → Bool
  | .ok => true
  | .err _ => false

def errText : SendOutcome → String
  | .ok => ""
  | .err t => t

/-- The provider-specific failure texts of a list of attempted providers, in
attempt order. -/
def failedMsgs (o : Provider → SendOutcome) : List Provider → List String
  | [] => []
  | p :: ps =>
    match o p with
    | .ok => failedMsgs o ps
    | .err t => GenerateCodeMulti.providerErrMsg p t :: failedMsgs o ps

/-- Concatenate diagnostic messages the way the threaded `note` does. -/
def joinBar (msgs : List String) : Option String :=
  msgs.foldl GenerateCodeMulti.noteAppend none

/-- Written from the spec's words (§3): among the rows matching
`(email, code, used=false)`, the most recent one — the last inserted, since the
store appends and returns rows in insertion order. -/
def mostRecentMatch (s : Store) (em cd : String) : Option CodeRow :=
  (VerifyCode.codesQuery s em cd).getLast?

/-- Whether a response body carries the given verification code. -/
def disclosesCode (b : Body) (c : String) : Bool :=
  match b with
  | .successCodeNote c2 _ => c2 == c
  | _ => false

/-! Concrete inputs for witnesses and counterexamples. -/

def c1Env : Env := ⟨some "u", some "k", none, none, none, none, none⟩

def c1Req : VerifyCode.Req := ⟨"POST", some "a@b.c", some "123456", some "pw", none⟩

def c1Store : Store := ⟨[⟨"a@b.c", "123456", 5000, false⟩], [], [], 0⟩

def c3Store : Store :=
  ⟨[⟨"a@b.c", "123456", 500, false⟩, ⟨"a@b.c", "123456", 2000, false⟩], [], [], 0⟩

def c10Store : Store :=
  ⟨[⟨"a@b.c", "123456", 5000, false⟩, ⟨"a@b.c", "123456", 9000, true⟩,
    ⟨"a@b.c", "654321", 5, false⟩], [], [], 0⟩

def c4Env : Env := ⟨some "u", some "k", none, none, none, none, some "f@x"⟩

def c4Req : GenerateCodeMulti.Req := ⟨"POST", some "a@b.c"⟩

def c4Store : Store := ⟨[], [], [], 0⟩

def c4o : Provider → SendOutcome := fun _ => .err "x"

def c5Store : Store := ⟨[⟨"a@b.c", "111111", 5000, false⟩], [], [], 0⟩

def c7Env : Env := ⟨none, none, some "rk", some "sk", none, none, some "f@x"⟩

def c7Req : Feedback.Req := ⟨"POST", some "t@x", some "hello", none, none⟩

def c8Store : Store := ⟨[], [⟨1, "a@b.c"⟩], [], 2⟩

/-! Helper lemmas about the verifier. -/

lemma codesQuery_eq_of_emailCodes {s s' : Store} (h : s.emailCodes = s'.emailCodes)
    (em cd : String) : VerifyCode.codesQuery s em cd = VerifyCode.codesQuery s' em cd := by
  simp [VerifyCode.codesQuery, h]

lemma codesQuery_markUsed_self (s : Store) (em cd : String) :
    VerifyCode.codesQuery (VerifyCode.markUsed s em cd) em cd = [] := by
  simp only [VerifyCode.codesQuery, VerifyCode.markUsed]
  rw [List.filter_eq_nil_iff]
  intro r hr
  rcases List.mem_map.1 hr with ⟨a, _, rfl⟩
  by_cases hac : a.email = em ∧ a.code = cd
  · rw [if_pos hac]
    simp
  · rw [if_neg hac]
    simp only [decide_eq_true_eq]
    intro hcon
    exact hac ⟨hcon.1, hcon.2.1⟩

lemma verify_success_spec (env : Env) (req : VerifyCode.Req) (now : Int) (s : Store)
    (h : (VerifyCode.handler env req now s).1 = ⟨200, Body.success⟩) :
    req.httpMethod = "POST" ∧ normEmail req.email ≠ "" ∧ normCode req.code ≠ "" ∧
      req.password.getD "" ≠ "" ∧ envSet env.supabaseUrl ∧ envSet env.serviceKey ∧
      (VerifyCode.handler env req now s).2.emailCodes
        = (VerifyCode.markUsed s (normEmail req.email) (normCode req.code)).emailCodes := by
  have hm : req.httpMethod = "POST" := by
    by_contra hm
    simp [VerifyCode.handler, hm] at h
  have hv : ¬ (normEmail req.email = "" ∨ normCode req.code = "" ∨ req.password.getD "" = "") := by
    intro hv
    simp [VerifyCode.handler, hm, hv] at h
  have hc : ¬ (¬ envSet env.supabaseUrl ∨ ¬ envSet env.serviceKey) := by
    intro hc
    simp [VerifyCode.handler, hm, hv, hc] at h
  have hv' := hv
  have hc' := hc
  push_neg at hv' hc'
  rcases hq : VerifyCode.codesQuery s (normEmail req.email) (normCode req.code) with _ | ⟨r, rest⟩
  · exfalso
    simp [VerifyCode.handler, hm, hv, hc, hq] at h
  · by_cases he : r.expires_at < now
    · exfalso
      simp [VerifyCode.handler, hm, hv, hc, hq, he] at h
    · refine ⟨hm, hv'.1, hv'.2.1, hv'.2.2, hc'.1, hc'.2, ?_⟩
      rcases hu : usersByEmail
          (VerifyCode.markUsed s (normEmail req.email) (normCode req.code))
          (normEmail req.email) with _ | ⟨u, us⟩ <;>
        simp [VerifyCode.handler, hm, hv, hc, hq, he, hu, VerifyCode.upsertProfile]

lemma verify_emailCodes_cases (env : Env) (req : VerifyCode.Req) (now : Int) (s : Store) :
    (VerifyCode.handler env req now s).2.emailCodes = s.emailCodes ∨
    (VerifyCode.handler env req now s).2.emailCodes
      = (VerifyCode.markUsed s (normEmail req.email) (normCode req.code)).emailCodes := by
  simp only [VerifyCode.handler]
  repeat' split
  all_goals simp [VerifyCode.upsertProfile]

lemma legacy_store_unchanged (env : Env) (req : GenerateCodeMulti.Req) (s : Store) :
    (GenerateCodeLegacy.handler env req s).2 = s := by
  by_cases hm : req.httpMethod = "POST" <;>
  by_cases he : normEmail req.email = "" <;>
  by_cases hc : ¬ envSet env.supabaseUrl ∨ ¬ envSet env.serviceKey <;>
  by_cases hu : usersByEmail s (normEmail req.email) = [] <;>
  simp [GenerateCodeLegacy.handler, GenerateCodeLegacy.tryBlock, hm, he, hc, hu]

lemma gen2_emailCodes_cases (env : Env) (req : GenerateCodeMulti.Req) (now : Int)
    (rcode : String) (o : Provider → SendOutcome) (s : Store) :
    (GenerateCodeMulti.handler env req now rcode o s).2 = s ∨
    (GenerateCodeMulti.handler env req now rcode o s).2.emailCodes
      = s.emailCodes ++ [⟨normEmail req.email, rcode, now + 60 * 60 * 1000, false⟩] := by
  simp only [GenerateCodeMulti.handler]
  repeat' split
  all_goals simp

lemma usedMonoL_refl (l : List CodeRow) : usedMonoL l l :=
  ⟨le_refl _, fun _ _ _ h => h⟩

lemma usedMonoL_markUsed (s : Store) (em cd : String) :
    usedMonoL s.emailCodes (VerifyCode.markUsed s em cd).emailCodes := by
  constructor
  · simp [VerifyCode.markUsed]
  · intro i h1 h2 hu
    simp only [VerifyCode.markUsed, List.getElem_map]
    split
    · simp
    · exact hu

lemma usedMonoL_append (l l2 : List CodeRow) : usedMonoL l (l ++ l2) := by
  constructor
  · simp
  · intro i h1 h2 hu
    rw [List.getElem_append_left h1]
    exact hu

lemma verify_usedMonotone (env : Env) (req : VerifyCode.Req) (now : Int) (s : Store) :
    usedMonotone s (VerifyCode.handler env req now s).2 := by
  rcases verify_emailCodes_cases env req now s with h | h <;> unfold usedMonotone <;> rw [h]
  · exact usedMonoL_refl _
  · exact usedMonoL_markUsed s _ _

lemma gen2_usedMonotone (env : Env) (req : GenerateCodeMulti.Req) (now : Int)
    (rcode : String) (o : Provider → SendOutcome) (s : Store) :
    usedMonotone s (GenerateCodeMulti.handler env req now rcode o s).2 := by
  rcases gen2_emailCodes_cases env req now rcode o s with h | h <;> unfold usedMonotone
  · rw [h]
    exact usedMonoL_refl _
  · rw [h]
    exact usedMonoL_append _ _

lemma legacy_usedMonotone (env : Env) (req : GenerateCodeMulti.Req) (s : Store) :
    usedMonotone s (GenerateCodeLegacy.handler env req s).2 := by
  rw [usedMonotone, legacy_store_unchanged]
  exact usedMonoL_refl _

/-- Claim C1: after a verification for `(email, code)` succeeds (the matching
rows are marked `used=true`), any subsequent well-formed verification request
with the same normalized e-mail and code fails with the `InvalidCodeError`
response (HTTP 400, body `{error: "Invalid or expired verification code"}`),
because the verifier selects only rows with `used=false`; and no operation of
the flow (verifier, multi-provider issuer, legacy issuer) ever sets a row's
`used` field from `true` back to `false` (`usedMonotone`). -/
theorem c1_consumed_code_replay_fails :
    (∀ (env : Env) (req req' : VerifyCode.Req) (now now' : Int) (s : Store),
      req'.httpMethod = "POST" →
      normEmail req'.email = normEmail req.email →
      normCode req'.code = normCode req.code →
      req'.password.getD "" ≠ "" →
      (VerifyCode.handler env req now s).1 = ⟨200, Body.success⟩ →
      (VerifyCode.handler env req' now' (VerifyCode.handler env req now s).2).1
        = ⟨400, Body.errorMsg "Invalid or expired verification code"⟩)
    ∧ (∀ env req now s, usedMonotone s (VerifyCode.handler env req now s).2)
    ∧ (∀ env req now rcode o s,
        usedMonotone s (GenerateCodeMulti.handler env req now rcode o s).2)
    ∧ (∀ env req s, usedMonotone s (GenerateCodeLegacy.handler env req s).2) := by
  refine ⟨?_, verify_usedMonotone, gen2_usedMonotone, legacy_usedMonotone⟩
  intro env req req' now now' s hm' hEm hCd hpw h
  obtain ⟨hm, hem, hcd0, hpw0, h1, h2, hstore⟩ := verify_success_spec env req now s h
  have hq2 : VerifyCode.codesQuery (VerifyCode.handler env req now s).2
      (normEmail req.email) (normCode req.code) = [] := by
    rw [codesQuery_eq_of_emailCodes hstore]
    exact codesQuery_markUsed_self s _ _
  generalize hgen : (VerifyCode.handler env req now s).2 = s2 at hq2 ⊢
  simp [VerifyCode.handler, hm', hEm, hCd, hem, hcd0, hpw, h1, h2, hq2]

/-- Claim C1 witness: a concrete replay after a successful verification. -/
theorem c1_witness :
    (VerifyCode.handler c1Env c1Req 1000 (VerifyCode.handler c1Env c1Req 1000 c1Store).2).1
      = ⟨400, Body.errorMsg "Invalid or expired verification code"⟩ :=
  c1_consumed_code_replay_fails.1 c1Env c1Req c1Req 1000 1000 c1Store rfl rfl rfl
    (by decide) (by decide)

/-- Claim C2: for a well-formed, configured verification request, if the
matching row (the single row the `used=false` query returns) has expired the
verifier answers the `ExpiredCodeError` response, if no row matches it answers
the `InvalidCodeError` response; both are HTTP 400 yet carry distinct bodies,
so the caller can distinguish them. -/
theorem c2_expired_distinct_from_invalid
    (env : Env) (req : VerifyCode.Req) (now : Int) (s : Store)
    (hm : req.httpMethod = "POST")
    (he : normEmail req.email ≠ "") (hcd : normCode req.code ≠ "")
    (hpw : req.password.getD "" ≠ "")
    (h1 : envSet env.supabaseUrl) (h2 : envSet env.serviceKey) :
    (∀ r : CodeRow,
      VerifyCode.codesQuery s (normEmail req.email) (normCode req.code) = [r] →
      r.expires_at < now →
      (VerifyCode.handler env req now s).1
        = ⟨400, Body.errorMsg "Verification code has expired"⟩)
    ∧ (VerifyCode.codesQuery s (normEmail req.email) (normCode req.code) = [] →
      (VerifyCode.handler env req now s).1
        = ⟨400, Body.errorMsg "Invalid or expired verification code"⟩)
    ∧ Body.errorMsg "Verification code has expired"
        ≠ Body.errorMsg "Invalid or expired verification code" := by
  refine ⟨?_, ?_, by decide⟩
  · intro r hq hex
    simp [VerifyCode.handler, hm, he, hcd, hpw, h1, h2, hq, hex]
  · intro hq
    simp [VerifyCode.handler, hm, he, hcd, hpw, h1, h2, hq]

/-- Claim C2 witness: a concrete expired row yields the expired response. -/
theorem c2_witness :
    (VerifyCode.handler c1Env c1Req 9000 c1Store).1
      = ⟨400, Body.errorMsg "Verification code has expired"⟩ :=
  (c2_expired_distinct_from_invalid c1Env c1Req 9000 c1Store rfl (by decide) (by decide)
      (by decide) (by decide) (by decide)).1
    ⟨"a@b.c", "123456", 5000, false⟩ (by decide) (by decide)

/-- Claim C3 counterexample: two rows match `(a@b.c, 123456, used=false)`; the
most recent matching row (the later-inserted one, expiring at 2000) is not
expired at `now = 1000`, yet the verifier answers `ExpiredCodeError` — it
checked the expiry of the first row the store returned (expiring at 500), not
the most recent matching row's. -/
theorem c3_counterexample :
    mostRecentMatch c3Store "a@b.c" "123456" = some ⟨"a@b.c", "123456", 2000, false⟩
    ∧ ¬ ((2000 : Int) < 1000)
    ∧ (VerifyCode.handler c1Env c1Req 1000 c3Store).1
        = ⟨400, Body.errorMsg "Verification code has expired"⟩ := by decide

/-- Claim C3 as amended: when several rows match `(email, code, used=false)`,
the verifier treats the FIRST matching row in store (insertion) order — not the
most recent one — as authoritative: it answers `ExpiredCodeError` exactly when
that first row's expiry has passed, and otherwise proceeds to mark the code
used and succeed. -/
theorem c3_first_matching_row_authoritative
    (env : Env) (req : VerifyCode.Req) (now : Int) (s : Store) (r : CodeRow)
    (rest : List CodeRow)
    (hm : req.httpMethod = "POST")
    (he : normEmail req.email ≠ "") (hcd : normCode req.code ≠ "")
    (hpw : req.password.getD "" ≠ "")
    (h1 : envSet env.supabaseUrl) (h2 : envSet env.serviceKey)
    (hq : VerifyCode.codesQuery s (normEmail req.email) (normCode req.code) = r :: rest) :
    (r.expires_at < now →
      (VerifyCode.handler env req now s).1
        = ⟨400, Body.errorMsg "Verification code has expired"⟩)
    ∧ (¬ r.expires_at < now →
      (VerifyCode.handler env req now s).1 = ⟨200, Body.success⟩
      ∧ (VerifyCode.handler env req now s).2.emailCodes
          = (VerifyCode.markUsed s (normEmail req.email) (normCode req.code)).emailCodes) := by
  constructor
  · intro hex
    simp [VerifyCode.handler, hm, he, hcd, hpw, h1, h2, hq, hex]
  · intro hex
    rcases hu : usersByEmail
        (VerifyCode.markUsed s (normEmail req.email) (normCode req.code))
        (normEmail req.email) with _ | ⟨u, us⟩ <;>
      simp [VerifyCode.handler, hm, he, hcd, hpw, h1, h2, hq, hex, hu, VerifyCode.upsertProfile]

/-- Claim C3 (amended) witness: on the two-row store the first matching row is
expired at `now = 1000`, and the verifier indeed answers `ExpiredCodeError`. -/
theorem c3_witness :
    (VerifyCode.handler c1Env c1Req 1000 c3Store).1
      = ⟨400, Body.errorMsg "Verification code has expired"⟩ :=
  (c3_first_matching_row_authoritative c1Env c1Req 1000 c3Store
      ⟨"a@b.c", "123456", 500, false⟩ [⟨"a@b.c", "123456", 2000, false⟩]
      rfl (by decide) (by decide) (by decide) (by decide) (by decide) (by decide)).1
    (by decide)

/-- Claim C10: the verifier's mark-used PATCH is filtered only by
`(email, code)`: whenever a verification reaches the mark-used step (in this
model, exactly when it succeeds), every row of the store whose e-mail and code
match — including rows other than the one whose expiry was checked and rows
already marked used — ends with `used = true`, and all other rows are
untouched; the write is unconditional, not a compare-and-set on `used=false`. -/
theorem c10_mark_used_plain_write
    (env : Env) (req : VerifyCode.Req) (now : Int) (s : Store)
    (h : (VerifyCode.handler env req now s).1 = ⟨200, Body.success⟩) :
    (VerifyCode.handler env req now s).2.emailCodes.length = s.emailCodes.length
    ∧ ∀ (i : Nat) (h1 : i < s.emailCodes.length)
        (h2 : i < (VerifyCode.handler env req now s).2.emailCodes.length),
        ((s.emailCodes[i]).email = normEmail req.email
            ∧ (s.emailCodes[i]).code = normCode req.code →
          ((VerifyCode.handler env req now s).2.emailCodes[i])
            = { s.emailCodes[i] with used := true })
        ∧ (¬ ((s.emailCodes[i]).email = normEmail req.email
            ∧ (s.emailCodes[i]).code = normCode req.code) →
          ((VerifyCode.handler env req now s).2.emailCodes[i]) = s.emailCodes[i]) := by
  obtain ⟨-, -, -, -, -, -, hstore⟩ := verify_success_spec env req now s h
  rw [hstore]
  constructor
  · simp [VerifyCode.markUsed]
  · intro i h1 h2
    constructor
    · intro hmatch
      simp only [VerifyCode.markUsed, List.getElem_map]
      rw [if_pos hmatch]
    · intro hmatch
      simp only [VerifyCode.markUsed, List.getElem_map]
      rw [if_neg hmatch]

/-- Claim C10 witness: on a store holding two rows with the verified
`(email, code)` (one already used) and one unrelated row, a successful
verification rewrites both matching rows to `used=true` and leaves the
unrelated row unchanged. -/
theorem c10_witness :
    (VerifyCode.handler c1Env c1Req 1000 c10Store).2.emailCodes.length
        = c10Store.emailCodes.length
    ∧ ∀ (i : Nat) (h1 : i < c10Store.emailCodes.length)
        (h2 : i < (VerifyCode.handler c1Env c1Req 1000 c10Store).2.emailCodes.length),
        ((c10Store.emailCodes[i]).email = normEmail c1Req.email
            ∧ (c10Store.emailCodes[i]).code = normCode c1Req.code →
          ((VerifyCode.handler c1Env c1Req 1000 c10Store).2.emailCodes[i])
            = { c10Store.emailCodes[i] with used := true })
        ∧ (¬ ((c10Store.emailCodes[i]).email = normEmail c1Req.email
            ∧ (c10Store.emailCodes[i]).code = normCode c1Req.code) →
          ((VerifyCode.handler c1Env c1Req 1000 c10Store).2.emailCodes[i])
            = c10Store.emailCodes[i]) :=
  c10_mark_used_plain_write c1Env c1Req 1000 c10Store (by decide)

/-! Helper lemmas about the issuer's provider-dispatch block. -/

lemma sendCore_spec (env : Env) (o : Provider → SendOutcome) :
    (GenerateCodeMulti.sendCore env o).attempts = specAttempts o (configuredProviders env)
    ∧ (GenerateCodeMulti.sendCore env o).note
        = joinBar (failedMsgs o (GenerateCodeMulti.sendCore env o).attempts)
    ∧ (GenerateCodeMulti.sendCore env o).emailSent
        = (configuredProviders env).any (fun p => isOk (o p)) := by
  by_cases hb1 : envSet env.resendKey <;>
  by_cases hb2 : envSet env.sendgridKey <;>
  by_cases hb3 : envSet env.mailgunKey ∧ envSet env.mailgunDomain <;>
  rcases ho1 : o Provider.resend with _ | t1 <;>
  rcases ho2 : o Provider.sendgrid with _ | t2 <;>
  rcases ho3 : o Provider.mailgun with _ | t3 <;>
  simp [GenerateCodeMulti.sendCore, GenerateCodeMulti.attempt, configuredProviders,
        specAttempts, failedMsgs, joinBar, GenerateCodeMulti.noteAppend, isOk,
        hb1, hb2, hb3, ho1, ho2, ho3]

lemma sendPhase_attempts (env : Env) (o : Provider → SendOutcome)
    (hf : envSet env.fromEmail) :
    (GenerateCodeMulti.sendPhase env o).attempts
      = specAttempts o (configuredProviders env) := by
  have h := (sendCore_spec env o).1
  simp only [GenerateCodeMulti.sendPhase, if_pos hf]
  split
  · simpa using h
  · exact h

lemma sendPhase_noProviders (env : Env) (o : Provider → SendOutcome)
    (hf : envSet env.fromEmail) (hconf : configuredProviders env = []) :
    GenerateCodeMulti.sendPhase env o
      = ⟨false, some "No email provider configured or all providers failed", []⟩ := by
  by_cases hb1 : envSet env.resendKey
  · exfalso
    simp [configuredProviders, hb1] at hconf
  by_cases hb2 : envSet env.sendgridKey
  · exfalso
    simp [configuredProviders, hb2] at hconf
  by_cases hb3 : envSet env.mailgunKey ∧ envSet env.mailgunDomain
  · exfalso
    simp [configuredProviders, hb3] at hconf
  simp [GenerateCodeMulti.sendPhase, GenerateCodeMulti.sendCore, hf, hb1, hb2, hb3]

lemma specAttempts_allFail (o : Provider → SendOutcome) :
    ∀ ps : List Provider, (∀ p ∈ ps, isOk (o p) = false) → specAttempts o ps = ps := by
  intro ps
  induction ps with
  | nil => intro _; rfl
  | cons p ps ih =>
    intro h
    rcases hop : o p with _ | t
    · have hc := h p (by simp)
      rw [hop] at hc
      exact absurd hc (by simp [isOk])
    · simp only [specAttempts, hop]
      rw [ih (fun q hq => h q (List.mem_cons_of_mem p hq))]

lemma failedMsgs_allFail (o : Provider → SendOutcome) :
    ∀ ps : List Provider, (∀ p ∈ ps, isOk (o p) = false) →
      failedMsgs o ps = ps.map (fun p => GenerateCodeMulti.providerErrMsg p (errText (o p))) := by
  intro ps
  induction ps with
  | nil => intro _; rfl
  | cons p ps ih =>
    intro h
    rcases hop : o p with _ | t
    · have hc := h p (by simp)
      rw [hop] at hc
      exact absurd hc (by simp [isOk])
    · simp only [failedMsgs, List.map_cons, hop]
      have ht2 : errText (SendOutcome.err t) = t := rfl
      rw [ht2, ih (fun q hq => h q (List.mem_cons_of_mem p hq))]

lemma foldl_noteAppend_some (ms : List String) :
    ∀ a : String, ms.foldl GenerateCodeMulti.noteAppend (some a)
      = some (ms.foldl (fun x y => x ++ " | " ++ y) a) := by
  induction ms with
  | nil => intro a; rfl
  | cons m ms ih =>
    intro a
    simp only [List.foldl_cons, GenerateCodeMulti.noteAppend]
    exact ih (a ++ " | " ++ m)

lemma joinBar_cons (m : String) (ms : List String) :
    joinBar (m :: ms) = some (ms.foldl (fun x y => x ++ " | " ++ y) m) := by
  simp only [joinBar, List.foldl_cons, GenerateCodeMulti.noteAppend]
  exact foldl_noteAppend_some ms m

lemma sendPhase_allFail (env : Env) (o : Provider → SendOutcome)
    (hf : envSet env.fromEmail) (hne : configuredProviders env ≠ [])
    (hfail : ∀ p ∈ configuredProviders env, isOk (o p) = false) :
    (GenerateCodeMulti.sendPhase env o).note
      = joinBar ((configuredProviders env).map
          (fun p => GenerateCodeMulti.providerErrMsg p (errText (o p))))
    ∧ (GenerateCodeMulti.sendPhase env o).emailSent = false := by
  obtain ⟨hatt, hnote, hsent⟩ := sendCore_spec env o
  have hsent0 : (GenerateCodeMulti.sendCore env o).emailSent = false := by
    rw [hsent]
    rw [List.any_eq_false]
    intro x hx
    simp [hfail x hx]
  have hattc : (GenerateCodeMulti.sendCore env o).attempts = configuredProviders env := by
    rw [hatt, specAttempts_allFail o _ hfail]
  have hnotec : (GenerateCodeMulti.sendCore env o).note
      = joinBar ((configuredProviders env).map
          (fun p => GenerateCodeMulti.providerErrMsg p (errText (o p)))) := by
    rw [hnote, hattc, failedMsgs_allFail o _ hfail]
  have hnn : (GenerateCodeMulti.sendCore env o).note ≠ none := by
    rw [hnotec]
    rcases hcfg : configuredProviders env with _ | ⟨p, ps⟩
    · exact absurd hcfg hne
    · simp [joinBar_cons]
  simp only [GenerateCodeMulti.sendPhase, if_pos hf]
  rw [if_neg (fun hcon => hnn hcon.2)]
  exact ⟨hnotec, hsent0⟩

lemma data_head_append (a b : String) (h : a.data ≠ []) :
    (a ++ b).data.head? = a.data.head? := by
  rw [String.data_append, List.head?_append]
  rcases hd : a.data with _ | ⟨c, cs⟩
  · exact absurd hd h
  · simp

lemma providerErrMsg_data_ne_nil (p : Provider) (t : String) :
    (GenerateCodeMulti.providerErrMsg p t).data ≠ [] := by
  cases p <;>
    · simp only [GenerateCodeMulti.providerErrMsg, String.data_append]
      intro hcon
      exact absurd (List.append_eq_nil.mp hcon).1 (by decide)

lemma foldl_barAppend_head (ms : List String) :
    ∀ a : String, a.data ≠ [] →
      (ms.foldl (fun x y => x ++ " | " ++ y) a).data.head? = a.data.head?
      ∧ (ms.foldl (fun x y => x ++ " | " ++ y) a).data ≠ [] := by
  induction ms with
  | nil => intro a ha; exact ⟨rfl, ha⟩
  | cons m ms ih =>
    intro a ha
    have hmid : (a ++ " | ").data ≠ [] := by
      rw [String.data_append]
      intro hcon
      exact ha (List.append_eq_nil.mp hcon).1
    have ha' : (a ++ " | " ++ m).data ≠ [] := by
      rw [String.data_append]
      intro hcon
      exact hmid (List.append_eq_nil.mp hcon).1
    obtain ⟨ih1, ih2⟩ := ih (a ++ " | " ++ m) ha'
    simp only [List.foldl_cons]
    refine ⟨?_, ih2⟩
    rw [ih1, data_head_append _ _ hmid, data_head_append _ _ ha]

lemma allFail_note_ne_noProv (env : Env) (o : Provider → SendOutcome)
    (p : Provider) (ps : List Provider) (hconf : configuredProviders env = p :: ps) :
    joinBar ((configuredProviders env).map
        (fun q => GenerateCodeMulti.providerErrMsg q (errText (o q))))
      ≠ some "No email provider configured or all providers failed" := by
  rw [hconf]
  simp only [List.map_cons]
  rw [joinBar_cons]
  intro hcon
  have hj := Option.some.inj hcon
  have hhead := (foldl_barAppend_head
      (ps.map (fun q => GenerateCodeMulti.providerErrMsg q (errText (o q))))
      (GenerateCodeMulti.providerErrMsg p (errText (o p)))
      (providerErrMsg_data_ne_nil p (errText (o p)))).1
  rw [hj] at hhead
  cases p with
  | resend =>
    simp only [GenerateCodeMulti.providerErrMsg] at hhead
    rw [data_head_append _ _ (by decide)] at hhead
    exact absurd hhead (by decide)
  | sendgrid =>
    simp only [GenerateCodeMulti.providerErrMsg] at hhead
    rw [data_head_append _ _ (by decide)] at hhead
    exact absurd hhead (by decide)
  | mailgun =>
    simp only [GenerateCodeMulti.providerErrMsg] at hhead
    rw [data_head_append _ _ (by decide)] at hhead
    exact absurd hhead (by decide)

lemma gen2_success_eq (env : Env) (req : GenerateCodeMulti.Req) (now : Int)
    (rcode : String) (o : Provider → SendOutcome) (s : Store)
    (hm : req.httpMethod = "POST") (he : normEmail req.email ≠ "")
    (h1 : envSet env.supabaseUrl) (h2 : envSet env.serviceKey)
    (hu : usersByEmail s (normEmail req.email) = [])
    (hcd : ¬ GenerateCodeMulti.cooldownHit s (normEmail req.email) now) :
    GenerateCodeMulti.handler env req now rcode o s
      = (⟨200, Body.successCodeNote rcode (GenerateCodeMulti.sendPhase env o).note⟩,
         { s with emailCodes :=
            s.emailCodes ++ [⟨normEmail req.email, rcode, now + 60 * 60 * 1000, false⟩] }) := by
  simp [GenerateCodeMulti.handler, hm, he, h1, h2, hu, hcd]

/-- Claim C4: for an issuance request that reaches persistence (part_002), the
handler answers HTTP 200 success even when delivery is impossible: with
`FROM_EMAIL` unset the note is `FROM_EMAIL is not configured`; with zero
providers configured it is the fixed fallback note; with at least one
configured provider and all of them failing it is the provider-specific error
texts concatenated in order of attempt — and that concatenation always differs
from the zero-provider note, so the two cases are distinguishable. -/
theorem c4_all_providers_fail_still_success
    (env : Env) (req : GenerateCodeMulti.Req) (now : Int) (rcode : String)
    (o : Provider → SendOutcome) (s : Store)
    (hm : req.httpMethod = "POST") (he : normEmail req.email ≠ "")
    (h1 : envSet env.supabaseUrl) (h2 : envSet env.serviceKey)
    (hu : usersByEmail s (normEmail req.email) = [])
    (hcd : ¬ GenerateCodeMulti.cooldownHit s (normEmail req.email) now) :
    (¬ envSet env.fromEmail →
      (GenerateCodeMulti.handler env req now rcode o s).1
        = ⟨200, Body.successCodeNote rcode (some "FROM_EMAIL is not configured")⟩)
    ∧ (envSet env.fromEmail → configuredProviders env = [] →
      (GenerateCodeMulti.handler env req now rcode o s).1
        = ⟨200, Body.successCodeNote rcode
            (some "No email provider configured or all providers failed")⟩)
    ∧ (∀ (p : Provider) (ps : List Provider),
      envSet env.fromEmail → configuredProviders env = p :: ps →
      (∀ q ∈ configuredProviders env, isOk (o q) = false) →
      (GenerateCodeMulti.handler env req now rcode o s).1
        = ⟨200, Body.successCodeNote rcode
            (joinBar ((configuredProviders env).map
              (fun q => GenerateCodeMulti.providerErrMsg q (errText (o q)))))⟩
      ∧ joinBar ((configuredProviders env).map
            (fun q => GenerateCodeMulti.providerErrMsg q (errText (o q))))
          ≠ some "No email provider configured or all providers failed") := by
  have hmain := gen2_success_eq env req now rcode o s hm he h1 h2 hu hcd
  refine ⟨?_, ?_, ?_⟩
  · intro hf
    rw [hmain]
    simp [GenerateCodeMulti.sendPhase, hf]
  · intro hf hconf
    rw [hmain]
    simp [sendPhase_noProviders env o hf hconf]
  · intro p ps hf hconf hfail
    have hsp := sendPhase_allFail env o hf (by rw [hconf]; simp) hfail
    constructor
    · rw [hmain]
      simp [hsp.1]
    · exact allFail_note_ne_noProv env o p ps hconf

/-- Claim C4 witness: zero providers configured, code row persisted, HTTP 200
with the fallback note. -/
theorem c4_witness :
    (GenerateCodeMulti.handler c4Env c4Req 0 "482913" c4o c4Store).1
      = ⟨200, Body.successCodeNote "482913"
          (some "No email provider configured or all providers failed")⟩ :=
  (c4_all_providers_fail_still_success c4Env c4Req 0 "482913" c4o c4Store rfl (by decide)
      (by decide) (by decide) (by decide) (by decide)).2.1 (by decide) (by decide)

/-- Claim C5 counterexample: with an unexpired, unused code for `a@b.c` in the
store, the part_002 issuer rejects a new issuance for the same e-mail with
HTTP 400 (the cooldown check of lines 154-188) and leaves the store unchanged —
contradicting the claim that no cooldown check rejects the request and that a
new code is persisted. -/
theorem c5_counterexample :
    GenerateCodeMulti.handler c4Env c4Req 1000 "222222" c4o c5Store
      = (⟨400, Body.errorMsg "A verification code has already been sent. Please check your email or wait until it expires."⟩,
         c5Store) := by decide

/-- Claim C5 as amended: the part_002 issuer enforces a cooldown — while an
unexpired, unused code exists for the normalized e-mail, issuance is rejected
with HTTP 400 and no row is persisted; the part_001 variant has no cooldown
check, but it never persists a code either (its handler leaves the store
unchanged on every input, failing before the insert). -/
theorem c5_cooldown_enforced :
    (∀ (env : Env) (req : GenerateCodeMulti.Req) (now : Int) (rcode : String)
      (o : Provider → SendOutcome) (s : Store),
      req.httpMethod = "POST" → normEmail req.email ≠ "" →
      envSet env.supabaseUrl → envSet env.serviceKey →
      usersByEmail s (normEmail req.email) = [] →
      GenerateCodeMulti.cooldownHit s (normEmail req.email) now →
      GenerateCodeMulti.handler env req now rcode o s
        = (⟨400, Body.errorMsg "A verification code has already been sent. Please check your email or wait until it expires."⟩,
           s))
    ∧ (∀ (env : Env) (req : GenerateCodeMulti.Req) (s : Store),
      (GenerateCodeLegacy.handler env req s).2 = s) := by
  constructor
  · intro env req now rcode o s hm he h1 h2 hu hcd
    simp [GenerateCodeMulti.handler, hm, he, h1, h2, hu, hcd]
  · exact legacy_store_unchanged

/-- Claim C5 (amended) witness: concrete cooldown rejection. -/
theorem c5_witness :
    GenerateCodeMulti.handler c4Env c4Req 2000 "333333" c4o c5Store
      = (⟨400, Body.errorMsg "A verification code has already been sent. Please check your email or wait until it expires."⟩,
         c5Store) :=
  c5_cooldown_enforced.1 c4Env c4Req 2000 "333333" c4o c5Store rfl (by decide) (by decide)
    (by decide) (by decide) (by decide)

/-- Claim C6 counterexample: a successful issuance through the part_002 handler
returns HTTP 200 whose body carries the generated verification code — the body
is `{success:true, code, note}`, not just `{success:true}` with a note. -/
theorem c6_counterexample :
    (GenerateCodeMulti.handler c4Env c4Req 0 "482913" c4o c4Store).1.statusCode = 200
    ∧ disclosesCode
        (GenerateCodeMulti.handler c4Env c4Req 0 "482913" c4o c4Store).1.body "482913"
        = true := by decide

/-- Claim C6 as amended: every successful issuance through the part_002 handler
answers HTTP 200 with body `{success:true, code, note}` — the generated
verification code is disclosed to the caller alongside the optional diagnostic
note. -/
theorem c6_success_body_discloses_code
    (env : Env) (req : GenerateCodeMulti.Req) (now : Int) (rcode : String)
    (o : Provider → SendOutcome) (s : Store)
    (hm : req.httpMethod = "POST") (he : normEmail req.email ≠ "")
    (h1 : envSet env.supabaseUrl) (h2 : envSet env.serviceKey)
    (hu : usersByEmail s (normEmail req.email) = [])
    (hcd : ¬ GenerateCodeMulti.cooldownHit s (normEmail req.email) now) :
    ∃ note, (GenerateCodeMulti.handler env req now rcode o s).1
        = ⟨200, Body.successCodeNote rcode note⟩
      ∧ disclosesCode (GenerateCodeMulti.handler env req now rcode o s).1.body rcode
          = true := by
  have hmain := gen2_success_eq env req now rcode o s hm he h1 h2 hu hcd
  refine ⟨(GenerateCodeMulti.sendPhase env o).note, ?_, ?_⟩
  · rw [hmain]
  · rw [hmain]
    simp [disclosesCode]

/-- Claim C6 (amended) witness. -/
theorem c6_witness :
    ∃ note, (GenerateCodeMulti.handler c4Env c4Req 0 "482913" c4o c4Store).1
        = ⟨200, Body.successCodeNote "482913" note⟩
      ∧ disclosesCode
          (GenerateCodeMulti.handler c4Env c4Req 0 "482913" c4o c4Store).1.body "482913"
          = true :=
  c6_success_body_discloses_code c4Env c4Req 0 "482913" c4o c4Store rfl (by decide)
    (by decide) (by decide) (by decide) (by decide)

/-- Claim C7 counterexample: in the feedback relay, Resend and SendGrid are
both configured and Resend fails, yet the relay answers HTTP 500 at once and
SendGrid — the next configured provider — is never attempted, contradicting the
claim that the shared dispatch logic falls through to the next configured
provider after a failure in both callers. -/
theorem c7_counterexample :
    Feedback.handler c7Env c7Req c4o
      = (⟨500, Body.text "Resend error: x"⟩, [Provider.resend])
    ∧ Provider.sendgrid ∈ configuredProviders c7Env
    ∧ Provider.sendgrid ∉ (Feedback.handler c7Env c7Req c4o).2 := by decide

/-- Claim C7 as amended: the part_002 issuer's dispatch block does attempt each
configured provider in the fixed priority order until one succeeds
(`specAttempts`), retaining every attempt's failure text in order in the note;
the feedback relay, by contrast, in EVERY configuration calls only the first
configured provider (whichever of Resend, SendGrid, Mailgun that is) — the
attempted list is exactly that provider, or empty when none is configured — and
answers HTTP 500 with that provider's error as soon as it fails, without
attempting any later configured provider. -/
theorem c7_issuer_falls_back_feedback_does_not :
    (∀ (env : Env) (o : Provider → SendOutcome), envSet env.fromEmail →
      (GenerateCodeMulti.sendPhase env o).attempts
        = specAttempts o (configuredProviders env))
    ∧ (∀ (env : Env) (o : Provider → SendOutcome),
      (GenerateCodeMulti.sendCore env o).note
        = joinBar (failedMsgs o (GenerateCodeMulti.sendCore env o).attempts))
    ∧ (∀ (env : Env) (req : Feedback.Req) (o : Provider → SendOutcome),
      req.httpMethod = "POST" → req.toAddr.getD "" ≠ "" →
      jsSlice (req.body.getD "") 20000 ≠ "" →
      (configuredProviders env = [] →
        Feedback.handler env req o
          = (⟨500, Body.text "No email provider configured. Set RESEND_API_KEY or SENDGRID_API_KEY or MAILGUN_API_KEY env var in Netlify."⟩,
             []))
      ∧ ∀ (p : Provider) (ps : List Provider), configuredProviders env = p :: ps →
          (Feedback.handler env req o).2 = [p]
          ∧ ∀ t : String, o p = SendOutcome.err t →
              Feedback.handler env req o
                = (⟨500, Body.text (GenerateCodeMulti.providerErrMsg p t)⟩, [p])) := by
  refine ⟨sendPhase_attempts, fun env o => (sendCore_spec env o).2.1, ?_⟩
  intro env req o hm hto hbody
  constructor
  · intro hconf
    by_cases hb1 : envSet env.resendKey
    · exfalso
      simp [configuredProviders, hb1] at hconf
    by_cases hb2 : envSet env.sendgridKey
    · exfalso
      simp [configuredProviders, hb2] at hconf
    by_cases hb3 : envSet env.mailgunKey ∧ envSet env.mailgunDomain
    · exfalso
      simp [configuredProviders, hb3] at hconf
    simp [Feedback.handler, hm, hto, hbody, hb1, hb2, hb3]
  · intro p ps hconf
    by_cases hb1 : envSet env.resendKey
    · cases p with
      | resend =>
        constructor
        · rcases ho : o Provider.resend with _ | t <;>
            simp [Feedback.handler, hm, hto, hbody, hb1, ho]
        · intro t hop
          simp [Feedback.handler, GenerateCodeMulti.providerErrMsg, hm, hto, hbody, hb1, hop]
      | sendgrid => simp [configuredProviders, hb1] at hconf
      | mailgun => simp [configuredProviders, hb1] at hconf
    · by_cases hb2 : envSet env.sendgridKey
      · cases p with
        | resend => simp [configuredProviders, hb1, hb2] at hconf
        | sendgrid =>
          constructor
          · rcases ho : o Provider.sendgrid with _ | t <;>
              simp [Feedback.handler, hm, hto, hbody, hb1, hb2, ho]
          · intro t hop
            simp [Feedback.handler, GenerateCodeMulti.providerErrMsg, hm, hto, hbody,
                  hb1, hb2, hop]
        | mailgun => simp [configuredProviders, hb1, hb2] at hconf
      · by_cases hb3 : envSet env.mailgunKey ∧ envSet env.mailgunDomain
        · cases p with
          | resend => simp [configuredProviders, hb1, hb2, hb3] at hconf
          | sendgrid => simp [configuredProviders, hb1, hb2, hb3] at hconf
          | mailgun =>
            constructor
            · rcases ho : o Provider.mailgun with _ | t <;>
                simp [Feedback.handler, hm, hto, hbody, hb1, hb2, hb3, ho]
            · intro t hop
              simp [Feedback.handler, GenerateCodeMulti.providerErrMsg, hm, hto, hbody,
                    hb1, hb2, hb3, hop]
        · exfalso
          simp [configuredProviders, hb1, hb2, hb3] at hconf

/-- Claim C7 (amended) witness: with Resend and SendGrid configured and Resend
failing, the relay answers 500 with the Resend error and attempts only Resend. -/
theorem c7_witness :
    Feedback.handler c7Env c7Req c4o
      = (⟨500, Body.text (GenerateCodeMulti.providerErrMsg Provider.resend "x")⟩,
         [Provider.resend]) :=
  ((c7_issuer_falls_back_feedback_does_not.2.2 c7Env c7Req c4o rfl (by decide)
      (by decide)).2 Provider.resend [Provider.sendgrid] (by decide)).2 "x" rfl

/-- Claim C8: in both generate-code variants, an issuance request whose
normalized e-mail already has a registered account fails with the
`DuplicateAccountError` response (HTTP 400, `{error: "This email is already
registered"}`) and the store — in particular `email_codes` — is unchanged. -/
theorem c8_duplicate_account_rejected
    (env : Env) (req : GenerateCodeMulti.Req) (now : Int) (rcode : String)
    (o : Provider → SendOutcome) (s : Store) (u : UserRow) (us : List UserRow)
    (hm : req.httpMethod = "POST") (he : normEmail req.email ≠ "")
    (h1 : envSet env.supabaseUrl) (h2 : envSet env.serviceKey)
    (hu : usersByEmail s (normEmail req.email) = u :: us) :
    GenerateCodeMulti.handler env req now rcode o s
      = (⟨400, Body.errorMsg "This email is already registered"⟩, s)
    ∧ GenerateCodeLegacy.handler env req s
      = (⟨400, Body.errorMsg "This email is already registered"⟩, s) := by
  constructor <;>
    simp [GenerateCodeMulti.handler, GenerateCodeLegacy.handler,
          GenerateCodeLegacy.tryBlock, hm, he, h1, h2, hu]

/-- Claim C8 witness: concrete duplicate-account rejection in both variants. -/
theorem c8_witness :
    GenerateCodeMulti.handler c4Env c4Req 0 "482913" c4o c8Store
      = (⟨400, Body.errorMsg "This email is already registered"⟩, c8Store)
    ∧ GenerateCodeLegacy.handler c4Env c4Req c8Store
      = (⟨400, Body.errorMsg "This email is already registered"⟩, c8Store) :=
  c8_duplicate_account_rejected c4Env c4Req 0 "482913" c4o c8Store ⟨1, "a@b.c"⟩ []
    rfl (by decide) (by decide) (by decide) (by decide)

/-- Claim C9: in the part_001 generate-code variant, every request that passes
the method, validation, configuration and duplicate-account checks hits the
undefined identifier `now` in the `expires_at` computation (a `ReferenceError`
caught by the surrounding try/catch), so the handler answers HTTP 500
`{error: "An unexpected error occurred"}` with the store unchanged; and no
input whatsoever makes that variant answer HTTP 200 — its success path is
unreachable. -/
theorem c9_legacy_reference_error :
    (∀ (env : Env) (req : GenerateCodeMulti.Req) (s : Store),
      req.httpMethod = "POST" → normEmail req.email ≠ "" →
      envSet env.supabaseUrl → envSet env.serviceKey →
      usersByEmail s (normEmail req.email) = [] →
      GenerateCodeLegacy.handler env req s
        = (⟨500, Body.errorMsg "An unexpected error occurred"⟩, s))
    ∧ (∀ (env : Env) (req : GenerateCodeMulti.Req) (s : Store),
      (GenerateCodeLegacy.handler env req s).1.statusCode ≠ 200) := by
  constructor
  · intro env req s hm he h1 h2 hu
    simp [GenerateCodeLegacy.handler, GenerateCodeLegacy.tryBlock, hm, he, h1, h2, hu]
  · intro env req s
    by_cases hm : req.httpMethod = "POST" <;>
    by_cases he : normEmail req.email = "" <;>
    by_cases hc : ¬ envSet env.supabaseUrl ∨ ¬ envSet env.serviceKey <;>
    by_cases hu : usersByEmail s (normEmail req.email) = [] <;>
    simp [GenerateCodeLegacy.handler, GenerateCodeLegacy.tryBlock, hm, he, hc, hu]

/-- Claim C9 witness: concrete well-formed request answered by the 500 path. -/
theorem c9_witness :
    GenerateCodeLegacy.handler c4Env c4Req c4Store
      = (⟨500, Body.errorMsg "An unexpected error occurred"⟩, c4Store) :=
  c9_legacy_reference_error.1 c4Env c4Req c4Store rfl (by decide) (by decide) (by decide)
    (by decide)
